import Mathlib

/-!
Shallow embedding of the multi-resource provisioning core of the
`github-python` service (FastAPI app orchestrating GitHub and SonarQube),
together with theorems settling the frozen claims about it.

Remote HTTP calls are modelled by per-call oracles (`Except String _`,
response status codes as `Nat`, response payloads as explicit records):
an `Except.error msg` models a raised exception whose string rendering is
`msg`, and a returned status code models the remote response.  The
`asyncio.gather(..., return_exceptions=True)` fan-outs always deliver the
per-task results positionally (in input order, independent of completion
order), which the embedding reflects by mapping each input to its own
oracle result.
-/

namespace GithubPython

/-! ## Python string primitives used by the source -/

/-- Python `str.lower()` (ASCII-faithful charwise lowering). -/
def pyLower (s : String) : String :=
  String.mk (s.data.map Char.toLower)

/-- Python `str.upper()` (ASCII-faithful charwise uppering). -/
def pyUpper (s : String) : String :=
  String.mk (s.data.map Char.toUpper)

/-- Python `str.capitalize()`: first character uppercased, the rest lowercased. -/
def pyCapitalize (s : String) : String :=
  match s.data with
  | [] => ""
  | c :: cs => String.mk (c.toUpper :: cs.map Char.toLower)

/-- Python `s.replace(" ", "-")`: for the single-character pattern this is a
charwise substitution of every space by a hyphen. -/
def pyReplaceSpaceDash (s : String) : String :=
  String.mk (s.data.map fun c => if c = ' ' then '-' else c)

/-- The `name.lower().replace(" ", "-")` idiom the source uses for slugs and
analysis project keys. -/
def pySlug (s : String) : String :=
  pyReplaceSpaceDash (pyLower s)

/-! ## Analysis project keys (sonarqube_utils.py) -/

/-- `create_sonarqube_project`, line 12:
`project_key = project_name.lower().replace(" ", "-")`. -/
def createProjectKey (projectName : String) : String :=
  pySlug projectName

/-- `delete_sonarqube_resources`, line 190:
`sonar_project_key = repo_name.lower().replace(" ", "-")`. -/
def deleteProjectKey (repoName : String) : String :=
  pySlug repoName

/-! ## Team name derivation -/

/-- `create_repo_teams` / `delete_multi_project`:
`team_suffixes = ['pull', 'triage', 'push', 'maintain', 'admin']`. -/
def teamSuffixes : List String :=
  ["pull", "triage", "push", "maintain", "admin"]

/-- `create_repo_teams`, line 180:
`team_name = f"{repo_name}-{suffix.capitalize()}"`. -/
def createdTeamName (repoName suffix : String) : String :=
  repoName ++ "-" ++ pyCapitalize suffix

/-- The five team names `create_repo_teams` derives for one repository, in the
fixed suffix order. -/
def createdTeamNames (repoName : String) : List String :=
  teamSuffixes.map (createdTeamName repoName)

/-- `delete_multi_project`, lines 315-316:
`team_name = f"{repo_name}-{suffix}"` then
`team_slug = team_name.lower().replace(" ", "-")`. -/
def deletedTeamSlug (repoName suffix : String) : String :=
  pySlug (repoName ++ "-" ++ suffix)

/-! ## Delete primitives: status-code handling (C4)

Each GitHub delete helper inspects only the response status: 204 is logged
as success, 404 is treated as already-deleted success, anything else is a
failure.  The SonarQube project delete accepts 404 then 200, anything else
(or a raised exception) is a failure. -/

/-- `delete_repo` (github_utils.py 48-60): result as a function of the
response status. -/
def delete_repo_result (status : Nat) : Bool :=
  if status = 204 then true
  else if status = 404 then true
  else false

/-- `delete_github_team` (github_utils.py 160-172). -/
def delete_github_team_result (status : Nat) : Bool :=
  if status = 204 then true
  else if status = 404 then true
  else false

/-- `delete_github_secret` (github_utils.py 265-277). -/
def delete_github_secret_result (status : Nat) : Bool :=
  if status = 204 then true
  else if status = 404 then true
  else false

/-- `delete_sonarqube_project` (sonarqube_utils.py 130-144): the whole call is
wrapped in try/except, so a raised exception (`Except.error`) yields `false`;
otherwise 404 is checked first, then 200, all else fails. -/
def delete_sonarqube_project_result (resp : Except String Nat) : Bool :=
  match resp with
  | .error _ => false
  | .ok status =>
      if status = 404 then true
      else if status = 200 then true
      else false

/-- Status-class test: is the status a 2xx success status. -/
def is2xx (status : Nat) : Bool :=
  decide (200 ≤ status) && decide (status < 300)

/-- Remote behaviour of a GitHub delete endpoint: deleting a present resource
answers 204, deleting an absent one answers 404. -/
def ghDeleteStatus (present : Bool) : Nat :=
  if present then 204 else 404

/-- Remote behaviour of the SonarQube project-delete endpoint: 200 when the
project is present, 404 when it is absent. -/
def sonarDeleteStatus (present : Bool) : Nat :=
  if present then 200 else 404

/-! ## Fan-out operations (C1): create_repos and generate_sonarqube_tokens

`create_repo` raises `aiohttp.ClientResponseError` on a non-2xx response, so
one unit's eventual result is either a repository payload or a raised
exception; the oracle `unit : String → Except String GhRepo` captures both.
`asyncio.gather(*tasks, return_exceptions=True)` never raises and delivers
results positionally, so the trailing `except` branch of `create_repos` is
unreachable and the whole operation is the positional map below. -/

/-- The part of the GitHub repository-creation payload the orchestration
reads (`repo['name']`; the generate-from-template response carries `name`). -/
structure GhRepo where
  name : String
deriving DecidableEq, Repr

/-- One entry of the `create_repos` result list: either the raw response
payload, or the failure record `{"name": ..., "success": False, "error": ...}`
built from a unit's exception. -/
inductive RepoRecord
  | payload (repo : GhRepo)
  | failure (name : String) (error : String)
deriving DecidableEq, Repr

/-- `create_repos` (github_utils.py 62-87): one task per name, gathered with
`return_exceptions=True`, then each exception is converted to a failure
record zipped against its own repository name. -/
def create_repos (unit : String → Except String GhRepo)
    (repoNames : List String) : List RepoRecord :=
  repoNames.map fun n =>
    match unit n with
    | .ok repo => .payload repo
    | .error e => .failure n e

/-- Remote response seen by one `generate_sonarqube_token` call: a 200 with a
token, a non-200 with an error body, or a raised exception. -/
inductive TokenResp
  | ok (token : String)
  | bad (status : Nat) (errorText : String)
  | exn (msg : String)
deriving DecidableEq

/-- The result dictionary of `generate_sonarqube_token`
(sonarqube_utils.py 59-92). -/
structure TokenRecord where
  project_key : String
  token : Option String
  success : Bool
  error : Option String
deriving DecidableEq, Repr

/-- `generate_sonarqube_token`: 200 yields a success record carrying the
token; a non-200 or an exception yields a failure record carrying the
project key and the error text (the function catches its own exceptions). -/
def generate_sonarqube_token (resp : TokenResp) (projectKey : String) :
    TokenRecord :=
  match resp with
  | .ok t => ⟨projectKey, some t, true, none⟩
  | .bad _ e => ⟨projectKey, none, false, some e⟩
  | .exn m => ⟨projectKey, none, false, some m⟩

/-- `generate_sonarqube_tokens` (sonarqube_utils.py 94-121): gather with
`return_exceptions=True` plus the zip conversion; since each unit catches its
own exceptions, the isinstance-Exception branch is unreachable and the
operation is the positional map of the unit. -/
def generate_sonarqube_tokens (env : String → TokenResp)
    (projectKeys : List String) : List TokenRecord :=
  projectKeys.map fun k => generate_sonarqube_token (env k) k

/-! ## Team-hierarchy creation records and the multi-create formatter (C2) -/

/-- One entry of the `create_repo_teams` result list: on success
`{"name", "success": True, "data", "permission"}`, on failure
`{"name", "success": False, "error"}` (no `permission` key). -/
inductive TeamRecord
  | ok (name : String) (permission : String)
  | fail (name : String) (error : String)
deriving DecidableEq, Repr

/-- `create_repo_teams` (github_utils.py 174-197): for each suffix in order,
derive the capitalized team name, run create_team + add_repo_to_team (their
combined outcome is the oracle `env repoName suffix`), and record success or
failure per permission level. -/
def create_repo_teams (env : String → String → Except String Unit)
    (repoName : String) : List TeamRecord :=
  teamSuffixes.map fun suffix =>
    let teamName := createdTeamName repoName suffix
    match env repoName suffix with
    | .ok _ => .ok teamName suffix
    | .error e => .fail teamName e

/-- `create_multi_repo_teams` (github_utils.py 199-206): the per-repository
team lists, concatenated in repository order. -/
def create_multi_repo_teams (env : String → String → Except String Unit)
    (repoNames : List String) : List TeamRecord :=
  repoNames.flatMap (create_repo_teams env)

/-- Remote response seen by one `create_sonarqube_project` call. -/
inductive SonarResp
  | ok
  | bad (status : Nat) (errorText : String)
  | exn (msg : String)
deriving DecidableEq

/-- The result dictionary of `create_sonarqube_project`
(sonarqube_utils.py 9-28). -/
structure SonarProjRecord where
  key : Option String
  name : String
  success : Bool
  error : Option String
deriving DecidableEq, Repr

/-- `create_sonarqube_project`: a 200 yields `{"key": project_key, "name",
"success": True}` with the key derived from the name; any other status or an
exception yields `{"key": None, ..., "success": False, "error"}`. -/
def create_sonarqube_project (resp : SonarResp) (projectName : String) :
    SonarProjRecord :=
  match resp with
  | .ok => ⟨some (createProjectKey projectName), projectName, true, none⟩
  | .bad _ e => ⟨none, projectName, false, some e⟩
  | .exn m => ⟨none, projectName, false, some m⟩

/-- `create_sonarqube_projects` (sonarqube_utils.py 30-57): positional
fan-out of `create_sonarqube_project` (each unit catches its own
exceptions). -/
def create_sonarqube_projects (env : String → SonarResp)
    (projectNames : List String) : List SonarProjRecord :=
  projectNames.map fun n => create_sonarqube_project (env n) n

/-- Response model `TeamInfo` (response_models). -/
structure TeamInfo where
  name : String
  permission : String
deriving DecidableEq, Repr

/-- Response model `ProjectSummary` (fields used by the formatter). -/
structure ProjectSummary where
  repo_name : String
  teams : List TeamInfo
  sonar_project_key : Option String
  sonar_token : Option String
deriving DecidableEq, Repr

/-- Response model `MultiProjectResponse`. -/
structure MultiProjectResponse where
  message : String
  projects : List ProjectSummary
deriving DecidableEq, Repr

/-- Repo-name extraction in `_format_multi_project_response` (lines 73-84):
both payload and failure dictionaries carry a `name` key; a falsy (empty)
name causes the entry to be skipped. -/
def repoNameOf : RepoRecord → Option String
  | .payload r => if r.name = "" then none else some r.name
  | .failure n _ => if n = "" then none else some n

/-- Team filter of `_format_multi_project_response` (lines 87-100): keep the
team records that carry both `name` and `permission` keys (i.e. success
records) whose name is in `[f"{repo_name}-{perm.upper()}" for perm in
["pull", "triage", "push", "maintain", "admin"]]`. -/
def formatTeamsFor (repoName : String) (teams : List TeamRecord) :
    List TeamInfo :=
  teams.filterMap fun t =>
    match t with
    | .ok nm perm =>
        if nm ∈ teamSuffixes.map (fun p => repoName ++ "-" ++ pyUpper p)
        then some ⟨nm, perm⟩ else none
    | .fail _ _ => none

/-- Sonar-project lookup of the formatter (lines 103-109): the first project
record with `success` truthy and `key == repo_name`. -/
def findSonarProject (repoName : String) (ps : List SonarProjRecord) :
    Option SonarProjRecord :=
  ps.find? fun p => p.success && p.key == some repoName

/-- Sonar-token lookup of the formatter (lines 110-116). -/
def findSonarToken (repoName : String) (ts : List TokenRecord) :
    Option TokenRecord :=
  ts.find? fun t => t.success && t.project_key == repoName

/-- `_format_multi_project_response` (project_service.py 68-129): per
repository entry, extract the name, attach the filtered teams, and append a
summary only when both a matching sonar project and token are found. -/
def format_multi_project_response (repos : List RepoRecord)
    (teams : List TeamRecord) (ps : List SonarProjRecord)
    (ts : List TokenRecord) : MultiProjectResponse :=
  let projects := repos.filterMap fun repo =>
    match repoNameOf repo with
    | none => none
    | some rn =>
        match findSonarProject rn ps, findSonarToken rn ts with
        | some p, some t => some ⟨rn, formatTeamsFor rn teams, p.key, t.token⟩
        | _, _ => none
  ⟨"Multi-project setup completed", projects⟩

/-! ## Ruleset reconciler (C5, C6)

`put_repo_rulesets` (project_service.py 352-415) threads three remote
calls — `find_org_repo_rules`, `org_repo_rulesets_list`,
`update_org_repo_ruleset` — here passed as oracles.  Python's
`list(set(...))` produces a duplicate-free list in unspecified order; the
embedding uses `List.dedup`, which agrees with it at the set level (the only
level any downstream use depends on, besides emptiness and length, which are
order-independent). -/

/-- The `{"id", "name"}` projection `find_org_repo_rules` returns. -/
structure RuleInfo where
  id : Nat
  name : String
deriving DecidableEq, Repr

/-- Service error taxonomy: `ValueError` (validation) versus any other
exception (remote/transport), which the router maps to distinct statuses. -/
inductive SvcError
  | validation (msg : String)
  | remote (msg : String)
deriving DecidableEq, Repr

/-- Success payload of `put_repo_rulesets`. -/
structure RulesetOutcome where
  message : String
  original_repos : List String
  updated_repos : List String
  added_repos : List String
  added_count : Nat
deriving DecidableEq, Repr

/-- `put_repo_rulesets` (project_service.py 352-415).  The first component
of the result is the list of allow-lists actually written to the remote
ruleset (empty when no write was performed), the second the returned value
or raised error. -/
def put_repo_rulesets
    (findRule : Except String (Option RuleInfo))
    (getRuleRepos : Except String (List String))
    (writeRule : List String → Except String Unit)
    (repoNames : List String) :
    List (List String) × Except SvcError RulesetOutcome :=
  if repoNames = [] then
    ([], .error (.validation "Please provide at least one repository name"))
  else
    match findRule with
    | .error e => ([], .error (.remote e))
    | .ok none => ([], .error (.validation "Repository ruleset not found"))
    | .ok (some _info) =>
      match getRuleRepos with
      | .error e => ([], .error (.remote e))
      | .ok original =>
        let updated := (original ++ repoNames).dedup
        let added := (repoNames.filter fun r => decide (r ∉ original)).dedup
        if updated = [] then
          ([], .error (.validation "No valid repository names provided"))
        else if added = [] then
          ([], .ok ⟨"No new repositories to add", original, updated, [], 0⟩)
        else
          match writeRule updated with
          | .error e => ([updated], .error (.remote e))
          | .ok _ =>
            ([updated],
             .ok ⟨"Successfully updated repository rulesets", original,
                  updated, added, added.length⟩)

/-- Recognizer for the validation branch of the result. -/
def isValidationErr : Except SvcError RulesetOutcome → Bool
  | .error (.validation _) => true
  | _ => false

/-- Router mapping (project_router.py 116-123): `ValueError` becomes HTTP
400, any other exception becomes HTTP 500, a normal return is 200. -/
def routeStatusOf : Except SvcError RulesetOutcome → Nat
  | .ok _ => 200
  | .error (.validation _) => 400
  | .error (.remote _) => 500

/-! ## Multi-delete (C8, C10)

`delete_multi_project` (project_service.py 287-350) loops over the input
names; per repository it initializes four booleans to False, runs the four
deletion stages in order inside one try/except (an exception records the
error and leaves the not-yet-assigned booleans False), then counts the
repositories whose four booleans are all True and formats
`(successful / len(repo_names)) * 100`.  Rational division in Lean is total
(division by zero yields 0) whereas Python raises `ZeroDivisionError`, so
the division is modelled by `pyDivNat`, which raises exactly when the
denominator is zero. -/

/-- Python's only numeric exception relevant here. -/
inductive PyError
  | zeroDivision
deriving DecidableEq, Repr

/-- Python float/true division by a `len(...)`: raises `ZeroDivisionError`
on a zero denominator, otherwise divides exactly. -/
def pyDivNat (a : Rat) (b : Nat) : Except PyError Rat :=
  if b = 0 then .error .zeroDivision else .ok (a / b)

/-- Per-repository remote environment for one multi-delete iteration:
status codes (or raised exceptions) for the two secret deletes, the per-slug
team deletes and the repository delete, plus the net outcome of
`delete_sonarqube_resources` (which catches its own remote errors but can
still raise, e.g. while opening its session). -/
structure RepoDeleteEnv where
  secretTokStatus : Except String Nat
  secretKeyStatus : Except String Nat
  teamStatus : String → Except String Nat
  repoStatus : Except String Nat
  sonarResult : Except String Bool

/-- One entry of the `details` list of the multi-delete report. -/
structure RepoDeleteResult where
  repo_name : String
  github_repo : Bool
  github_secrets : Bool
  github_teams : Bool
  sonarqube : Bool
  error : Option String
deriving DecidableEq, Repr

/-- The team-deletion inner loop of `delete_multi_project` (lines 312-319):
`teams_deleted` starts True and is cleared whenever one slug's delete
reports failure; an exception propagates out of the loop. -/
def delete_repo_teams_loop (teamStatus : String → Except String Nat)
    (repoName : String) : Except String Bool :=
  teamSuffixes.foldlM
    (fun acc suffix => do
      let status ← teamStatus (deletedTeamSlug repoName suffix)
      pure (acc && delete_github_team_result status))
    true

/-- The body of one `delete_multi_project` iteration (lines 292-333): the
four stages run in order; a raised exception is caught, recorded in
`error`, and leaves the booleans of the stages not yet recorded False. -/
def process_delete_repo (e : RepoDeleteEnv) (repoName : String) :
    RepoDeleteResult :=
  let r0 : RepoDeleteResult := ⟨repoName, false, false, false, false, none⟩
  match e.secretTokStatus with
  | .error m => { r0 with error := some m }
  | .ok s1 =>
    match e.secretKeyStatus with
    | .error m => { r0 with error := some m }
    | .ok s2 =>
      let r1 := { r0 with github_secrets :=
        delete_github_secret_result s1 && delete_github_secret_result s2 }
      match delete_repo_teams_loop e.teamStatus repoName with
      | .error m => { r1 with error := some m }
      | .ok td =>
        let r2 := { r1 with github_teams := td }
        match e.repoStatus with
        | .error m => { r2 with error := some m }
        | .ok s3 =>
          let r3 := { r2 with github_repo := delete_repo_result s3 }
          match e.sonarResult with
          | .error m => { r3 with error := some m }
          | .ok sd => { r3 with sonarqube := sd }

/-- Aggregate report of `delete_multi_project` (lines 346-350), with the
computed count, total, per-repository details and the exact percentage
value behind the `:.1f`-formatted `success_rate` string. -/
structure DeleteMultiReport where
  successCount : Nat
  total : Nat
  details : List RepoDeleteResult
  success_rate : Rat
deriving DecidableEq, Repr

/-- `delete_multi_project` (project_service.py 287-350). -/
def delete_multi_project (env : String → RepoDeleteEnv)
    (repoNames : List String) : Except PyError DeleteMultiReport :=
  let results := repoNames.map fun n => process_delete_repo (env n) n
  let successful := (results.filter fun r =>
    r.github_repo && r.github_secrets && r.github_teams && r.sonarqube).length
  match pyDivNat (successful * 100) repoNames.length with
  | .error e => .error e
  | .ok rate => .ok ⟨successful, repoNames.length, results, rate⟩

/-- One member outcome of the team-membership operations. -/
structure MemberResult where
  username : String
  success : Bool
deriving DecidableEq, Repr

/-- One team's result list from `update_team_members`. -/
structure TeamMembersResult where
  team_name : String
  members : List MemberResult
deriving DecidableEq, Repr

/-- Aggregate of the team-members service wrapper (lines 423-441). -/
structure TeamMembersReport where
  success_rate : Rat
  total_updates : Nat
  successful_updates : Nat
deriving DecidableEq, Repr

/-- `ProjectService.update_team_members` aggregation (project_service.py
423-441): totals counted by a nested loop, and the `success_rate` string is
`f"..."` only `if total_updates > 0`, else the constant `"0%"` — the
division is guarded, unlike in `delete_multi_project`. -/
def update_team_members_report (results : List TeamMembersResult) :
    TeamMembersReport :=
  let total := (results.map fun t => t.members.length).sum
  let succ := (results.map fun t => (t.members.filter fun m =>
    m.success).length).sum
  ⟨if total > 0 then (succ * 100 : Rat) / total else 0, total, succ⟩

/-! ## Multi-create secret accumulation (C9)

`create_multi_project` lines 185-196: one dictionary `secrets` is built by
iterating `zip(sonar_projects, sonar_tokens)` and, for each pair in which
both sides report success, overwriting `secrets["SONAR_TOKEN"]` and
`secrets["SONAR_PROJECT_KEY"]`; if the dictionary is non-empty it is then
written unchanged to every successful repository by `update_secrets`
(github_utils.py 279-317).  Since the two keys are always assigned
together, the dictionary is `none` (empty) or one `(token, key)` pair. -/

/-- The `secrets` dictionary after the accumulation loop (lines 186-191). -/
def build_multi_project_secrets (sonarProjects : List SonarProjRecord)
    (sonarTokens : List TokenRecord) :
    Option (Option String × Option String) :=
  (sonarProjects.zip sonarTokens).foldl
    (fun st pt =>
      if pt.1.success && pt.2.success then some (pt.2.token, pt.1.key) else st)
    none

/-- The last (project, token) pair of the zip in which both sides succeed. -/
def last_success_pair (ps : List SonarProjRecord) (ts : List TokenRecord) :
    Option (SonarProjRecord × TokenRecord) :=
  ((ps.zip ts).filter fun pt => pt.1.success && pt.2.success).getLast?

/-- The secret values `update_secrets` writes per successful repository
(lines 193-195 plus github_utils.py 294-315): the same dictionary is written
to every repository in `successful_repos`; no write happens when the
dictionary is empty. -/
def multi_project_secret_writes (ps : List SonarProjRecord)
    (ts : List TokenRecord) (successfulRepos : List String) :
    List (String × (Option String × Option String)) :=
  match build_multi_project_secrets ps ts with
  | none => []
  | some s => successfulRepos.map fun r => (r, s)

/-- All-success per-repository delete environment (every remote delete
answers its success status). -/
def trivialDeleteEnv : RepoDeleteEnv :=
  ⟨.ok 204, .ok 204, fun _ => .ok 204, .ok 204, .ok true⟩

end GithubPython

namespace GithubPython

/-! ## Theorems for C3, C4, C7 -/

/-- C3 counterexample: the claim says full provisioning derives the lowercase
team names `{R}-pull`, ..., but `create_repo_teams` capitalizes the suffix:
for `R = "repo"` the first created team name is `"repo-Pull"`, and the
derived list is not the lowercase one. -/
theorem c3_counterexample :
    createdTeamName "repo" "pull" = "repo-Pull" ∧
    createdTeamNames "repo" ≠
      ["repo-pull", "repo-triage", "repo-push", "repo-maintain", "repo-admin"] := by
  constructor
  · decide
  · decide

/-- C3 amended: for every repository name `R`, `create_repo_teams` derives
exactly the five team names `{R}-Pull, {R}-Triage, {R}-Push, {R}-Maintain,
{R}-Admin` (permission suffix capitalized by Python `str.capitalize`),
processed in that fixed order, and no other name is derived. -/
theorem c3_amended_created_team_names (R : String) :
    createdTeamNames R =
      [R ++ "-" ++ "Pull", R ++ "-" ++ "Triage", R ++ "-" ++ "Push",
       R ++ "-" ++ "Maintain", R ++ "-" ++ "Admin"] := by
  have h1 : pyCapitalize "pull" = "Pull" := by decide
  have h2 : pyCapitalize "triage" = "Triage" := by decide
  have h3 : pyCapitalize "push" = "Push" := by decide
  have h4 : pyCapitalize "maintain" = "Maintain" := by decide
  have h5 : pyCapitalize "admin" = "Admin" := by decide
  simp [createdTeamNames, teamSuffixes, createdTeamName, h1, h2, h3, h4, h5]

/-- C4 counterexample: the claim says only non-2xx responses other than 404
yield a failure result, but `delete_repo` returns failure for status 200,
which is a 2xx status (only 204 and 404 succeed); likewise
`delete_sonarqube_project` returns failure for status 204. -/
theorem c4_counterexample :
    delete_repo_result 200 = false ∧ is2xx 200 = true ∧
    delete_sonarqube_project_result (.ok 204) = false ∧ is2xx 204 = true := by
  decide

/-- C4 amended: every delete primitive treats a remote 404 as success, so
deleting a resource twice (present on the first call, absent on the second)
yields success both times; besides 404, exactly the primitive's expected
success status succeeds — 204 for repository, team and secret delete, 200 for
the analysis-project delete — and every other status (including other 2xx
statuses) yields a failure result. -/
theorem c4_amended_delete_primitives (s : Nat) :
    (delete_repo_result s = true ↔ s = 204 ∨ s = 404) ∧
    (delete_github_team_result s = true ↔ s = 204 ∨ s = 404) ∧
    (delete_github_secret_result s = true ↔ s = 204 ∨ s = 404) ∧
    (delete_sonarqube_project_result (.ok s) = true ↔ s = 200 ∨ s = 404) ∧
    (delete_repo_result (ghDeleteStatus true) = true ∧
     delete_repo_result (ghDeleteStatus false) = true) ∧
    (delete_github_team_result (ghDeleteStatus true) = true ∧
     delete_github_team_result (ghDeleteStatus false) = true) ∧
    (delete_github_secret_result (ghDeleteStatus true) = true ∧
     delete_github_secret_result (ghDeleteStatus false) = true) ∧
    (delete_sonarqube_project_result (.ok (sonarDeleteStatus true)) = true ∧
     delete_sonarqube_project_result (.ok (sonarDeleteStatus false)) = true) := by
  refine ⟨?_, ?_, ?_, ?_, by decide, by decide, by decide, by decide⟩ <;>
    · simp only [delete_repo_result, delete_github_team_result,
        delete_github_secret_result, delete_sonarqube_project_result]
      split_ifs <;> simp_all

/-- C1: each fan-out operation (`create_repos`,
`generate_sonarqube_tokens`) returns exactly one outcome record per input, in
input order (record `i` is a function of input `i` alone, so the positional
correspondence holds regardless of completion order and one unit's failure
can neither skip a sibling nor abort the batch), and a failing unit becomes a
failure record carrying that unit's identifier and error text. -/
theorem c1_fanout_isolation (unit : String → Except String GhRepo)
    (env : String → TokenResp) (names keys : List String) :
    (create_repos unit names).length = names.length ∧
    (∀ i : Nat, (create_repos unit names)[i]? =
      (names[i]?).map fun n =>
        match unit n with
        | .ok r => .payload r
        | .error e => .failure n e) ∧
    (∀ (i : Nat) (n e : String), names[i]? = some n → unit n = .error e →
      (create_repos unit names)[i]? = some (RepoRecord.failure n e)) ∧
    (generate_sonarqube_tokens env keys).length = keys.length ∧
    (∀ i : Nat, (generate_sonarqube_tokens env keys)[i]? =
      (keys[i]?).map fun k => generate_sonarqube_token (env k) k) ∧
    (∀ (i : Nat) (k : String) (s : Nat) (t : String),
      keys[i]? = some k → env k = .bad s t →
      (generate_sonarqube_tokens env keys)[i]? =
        some (TokenRecord.mk k none false (some t))) := by
  refine ⟨List.length_map _ _, fun i => ?_, fun i n e hn hu => ?_,
    List.length_map _ _, fun i => ?_, fun i k s t hk he => ?_⟩
  · simp [create_repos, List.getElem?_map]
  · simp [create_repos, List.getElem?_map, hn, hu]
  · simp [generate_sonarqube_tokens, List.getElem?_map]
  · simp [generate_sonarqube_tokens, List.getElem?_map, hk, he,
      generate_sonarqube_token]

/-- C1 witness: a concrete three-unit batch in which unit 2 fails — the
output has exactly three records, records 1 and 3 are the successful
payloads and record 2 is the failure record with its identifier and error. -/
theorem c1_fanout_isolation_witness :
    (create_repos
        (fun n => if n = "b" then .error "boom" else .ok ⟨n⟩)
        ["a", "b", "c"])[1]? = some (.failure "b" "boom") := by
  have h := c1_fanout_isolation
    (fun n => if n = "b" then .error "boom" else .ok ⟨n⟩)
    (fun _ => .ok "t") ["a", "b", "c"] []
  exact h.2.2.1 1 "b" "boom" (by decide) (by simp)

/-- C2 evaluation at the failing input: a multi-create of
`["svc-a", "svc-b"]` in which every remote call succeeds.  Ten team records
are produced (five per repository) and the response lists both repositories
with their project-key/token pair, but each listed repository carries zero
teams: `create_repo_teams` names teams `{R}-Pull` (str.capitalize) while the
formatter matches `{R}-PULL` (str.upper), so the claimed five teams per
repository never appear. -/
theorem c2_multi_create_teams_lost :
    (create_multi_repo_teams (fun _ _ => .ok ()) ["svc-a", "svc-b"]).length
        = 10 ∧
    (format_multi_project_response
        (create_repos (fun n => .ok ⟨n⟩) ["svc-a", "svc-b"])
        (create_multi_repo_teams (fun _ _ => .ok ()) ["svc-a", "svc-b"])
        (create_sonarqube_projects (fun _ => .ok) ["svc-a", "svc-b"])
        (generate_sonarqube_tokens (fun _ => .ok "tok") ["svc-a", "svc-b"])
      ).projects.map (fun p => (p.repo_name, p.teams.length)) =
      [("svc-a", 0), ("svc-b", 0)] ∧
    (format_multi_project_response
        (create_repos (fun n => .ok ⟨n⟩) ["svc-a", "svc-b"])
        (create_multi_repo_teams (fun _ _ => .ok ()) ["svc-a", "svc-b"])
        (create_sonarqube_projects (fun _ => .ok) ["svc-a", "svc-b"])
        (generate_sonarqube_tokens (fun _ => .ok "tok") ["svc-a", "svc-b"])
      ).projects.map (fun p => (p.sonar_project_key, p.sonar_token)) =
      [(some "svc-a", some "tok"), (some "svc-b", some "tok")] := by
  refine ⟨by decide, by decide, by decide⟩

/-- C5: with a resolvable policy and fetchable current allow-list, the
reconciler computes `updated = current ∪ requested` and
`added = requested \ current` (at the set level); when `added` is empty it
performs no remote write and reports `added_count = 0`, otherwise it writes
exactly the full union back (never just the added set); in particular every
written allow-list still contains all of `current` — the list is never
shrunk. -/
theorem c5_ruleset_union_monotonic (original repoNames : List String)
    (h : repoNames ≠ []) :
    ∃ out : RulesetOutcome,
      (put_repo_rulesets (.ok (some ⟨1, "rule"⟩)) (.ok original)
          (fun _ => .ok ()) repoNames).2 = .ok out ∧
      (∀ x, x ∈ out.updated_repos ↔ x ∈ original ∨ x ∈ repoNames) ∧
      (∀ x, x ∈ out.added_repos ↔ x ∈ repoNames ∧ x ∉ original) ∧
      out.added_count = out.added_repos.length ∧
      ((∀ x ∈ repoNames, x ∈ original) →
        (put_repo_rulesets (.ok (some ⟨1, "rule"⟩)) (.ok original)
            (fun _ => .ok ()) repoNames).1 = [] ∧ out.added_count = 0) ∧
      ((∃ x ∈ repoNames, x ∉ original) →
        (put_repo_rulesets (.ok (some ⟨1, "rule"⟩)) (.ok original)
            (fun _ => .ok ()) repoNames).1 = [out.updated_repos]) ∧
      (∀ w ∈ (put_repo_rulesets (.ok (some ⟨1, "rule"⟩)) (.ok original)
          (fun _ => .ok ()) repoNames).1, ∀ x ∈ original, x ∈ w) := by
  classical
  have hu : (original ++ repoNames).dedup ≠ [] := by
    obtain ⟨x, hx⟩ := List.exists_mem_of_ne_nil repoNames h
    exact List.ne_nil_of_mem (a := x) (by simp [List.mem_dedup, hx])
  by_cases hall : ∀ x ∈ repoNames, x ∈ original
  · refine ⟨⟨"No new repositories to add", original,
        (original ++ repoNames).dedup, [], 0⟩, ?_, ?_, ?_, rfl, ?_, ?_, ?_⟩
    · simp [put_repo_rulesets, h, hu, eq_true hall]
    · intro x; simp [List.mem_dedup]
    · intro x
      simp only [List.not_mem_nil, false_iff]
      rintro ⟨hx, hxo⟩
      exact hxo (hall x hx)
    · intro _
      exact ⟨by simp [put_repo_rulesets, h, hu, eq_true hall], rfl⟩
    · rintro ⟨x, hx, hxo⟩
      exact absurd (hall x hx) hxo
    · intro w hw
      exfalso
      simp [put_repo_rulesets, h, hu, eq_true hall] at hw
  · refine ⟨⟨"Successfully updated repository rulesets", original,
        (original ++ repoNames).dedup,
        (repoNames.filter fun r => decide (r ∉ original)).dedup,
        ((repoNames.filter fun r => decide (r ∉ original)).dedup).length⟩,
        ?_, ?_, ?_, rfl, ?_, ?_, ?_⟩
    · simp [put_repo_rulesets, h, hu, eq_false hall]
    · intro x; simp [List.mem_dedup]
    · intro x
      simp [List.mem_dedup, List.mem_filter]
    · intro hall'
      exact absurd hall' hall
    · intro _
      simp [put_repo_rulesets, h, hu, eq_false hall]
    · intro w hw x hx
      have hw' : w = (original ++ repoNames).dedup := by
        simpa [put_repo_rulesets, h, hu, eq_false hall] using hw
      subst hw'
      simp [List.mem_dedup, hx]

/-- C5 witness: current allow-list `["A", "B"]`, requested `["B", "C"]` — the
outcome is a success whose added set contains `"C"` and whose updated set
still contains `"A"` (the union, not the delta). -/
theorem c5_ruleset_union_monotonic_witness :
    (["B", "C"] : List String) ≠ [] ∧
    ∃ out : RulesetOutcome,
      (put_repo_rulesets (.ok (some ⟨1, "rule"⟩)) (.ok ["A", "B"])
          (fun _ => .ok ()) ["B", "C"]).2 = .ok out ∧
      "C" ∈ out.added_repos ∧ "A" ∈ out.updated_repos := by
  refine ⟨by decide, ?_⟩
  obtain ⟨out, h1, h2, h3, _, _, _, _⟩ :=
    c5_ruleset_union_monotonic ["A", "B"] ["B", "C"] (by decide)
  exact ⟨out, h1, (h3 "C").mpr (by decide), (h2 "A").mpr (Or.inl (by decide))⟩

/-- C6: the reconciler yields a validation error (ValueError), distinct from
a remote failure, exactly when the input repository list is empty or the
policy name resolves to nothing (the defensive empty-union case being
unreachable for non-empty input); in those cases no remote write happens,
and the router maps validation errors to HTTP 400 and remote errors to
HTTP 500. -/
theorem c6_ruleset_validation_errors
    (findRule : Except String (Option RuleInfo))
    (getRuleRepos : Except String (List String))
    (writeRule : List String → Except String Unit)
    (repoNames : List String) :
    (isValidationErr
        (put_repo_rulesets findRule getRuleRepos writeRule repoNames).2 = true
      ↔ repoNames = [] ∨ findRule = .ok none) ∧
    ((repoNames = [] ∨ findRule = .ok none) →
      (put_repo_rulesets findRule getRuleRepos writeRule repoNames).1 = []) ∧
    (isValidationErr
        (put_repo_rulesets findRule getRuleRepos writeRule repoNames).2 = true →
      routeStatusOf
        (put_repo_rulesets findRule getRuleRepos writeRule repoNames).2 = 400) ∧
    (∀ e, routeStatusOf (.error (.remote e)) = 500) := by
  classical
  by_cases h : repoNames = []
  · subst h
    refine ⟨by simp [put_repo_rulesets, isValidationErr], ?_, ?_, fun e => rfl⟩
    · intro _; simp [put_repo_rulesets]
    · intro _; simp [put_repo_rulesets, routeStatusOf]
  · have hu : ∀ original : List String,
        (original ++ repoNames).dedup ≠ [] := by
      intro original
      obtain ⟨x, hx⟩ := List.exists_mem_of_ne_nil repoNames h
      exact List.ne_nil_of_mem (a := x) (by simp [List.mem_dedup, hx])
    match findRule with
    | .error e =>
      refine ⟨by simp [put_repo_rulesets, isValidationErr, h], ?_, ?_,
        fun e => rfl⟩
      · rintro (h' | h')
        · exact absurd h' h
        · exact absurd h' (by simp)
      · intro hv
        simp [put_repo_rulesets, isValidationErr, h] at hv
    | .ok none =>
      refine ⟨by simp [put_repo_rulesets, isValidationErr, h], ?_, ?_,
        fun e => rfl⟩
      · intro _; simp [put_repo_rulesets, h]
      · intro _; simp [put_repo_rulesets, h, routeStatusOf]
    | .ok (some info) =>
      have hfalse : ∀ hv : isValidationErr
          (put_repo_rulesets (.ok (some info)) getRuleRepos writeRule
            repoNames).2 = true, False := by
        intro hv
        match hg : getRuleRepos with
        | .error e => simp [put_repo_rulesets, isValidationErr, h, hg] at hv
        | .ok original =>
          by_cases hall : ∀ x ∈ repoNames, x ∈ original
          · simp [put_repo_rulesets, isValidationErr, h, hg, hu original,
              eq_true hall] at hv
          · match hw : writeRule ((original ++ repoNames).dedup) with
            | .error e =>
              simp [put_repo_rulesets, isValidationErr, h, hg, hu original,
                eq_false hall, hw] at hv
            | .ok _ =>
              simp [put_repo_rulesets, isValidationErr, h, hg, hu original,
                eq_false hall, hw] at hv
      refine ⟨?_, ?_, ?_, fun e => rfl⟩
      · constructor
        · intro hv
          exact absurd hv (fun hv => hfalse hv)
        · rintro (h' | h')
          · exact absurd h' h
          · exact absurd h' (by simp)
      · rintro (h' | h')
        · exact absurd h' h
        · exact absurd h' (by simp)
      · intro hv
        exact absurd hv (fun hv => hfalse hv)

/-- C6 witness: with an empty input list the reconciler yields a validation
error, performs no write, and the router answers 400. -/
theorem c6_ruleset_validation_errors_witness :
    isValidationErr
        (put_repo_rulesets (.ok none) (.ok []) (fun _ => .ok ()) []).2 = true ∧
    (put_repo_rulesets (.ok none) (.ok []) (fun _ => .ok ()) []).1 = [] ∧
    routeStatusOf
        (put_repo_rulesets (.ok none) (.ok []) (fun _ => .ok ()) []).2 = 400 := by
  obtain ⟨h1, h2, h3, _⟩ :=
    c6_ruleset_validation_errors (.ok none) (.ok []) (fun _ => .ok ()) []
  have hv := h1.mpr (Or.inl rfl)
  exact ⟨hv, h2 (Or.inl rfl), h3 hv⟩

/-- C7: the analysis project key is a pure deterministic function of the
repository name (lowercase, spaces replaced by hyphens): repeated calls agree,
`project_key "My Repo" = "my-repo"`, and the decommission path
(`delete_sonarqube_resources`) rederives exactly the same key from the
repository name alone. -/
theorem c7_project_key_determinism :
    createProjectKey "My Repo" = "my-repo" ∧
    (∀ n : String, createProjectKey n = createProjectKey n) ∧
    (∀ n : String, deleteProjectKey n = createProjectKey n) := by
  refine ⟨by decide, fun _ => rfl, fun _ => rfl⟩

/-- C8 counterexample: the claim quantifies over every input list, but for
the empty list the success-percentage division is unguarded and raises
`ZeroDivisionError`, so no report with per-repository outcomes is produced. -/
theorem c8_counterexample :
    delete_multi_project (fun _ => trivialDeleteEnv) [] =
      .error .zeroDivision := rfl

/-- C8 amended: for every NON-EMPTY input list of repository names,
multi-delete records, per repository, an independent outcome for each of
repo, secrets, teams and sonarqube (entry `i` of the details is a function
of input `i` and its own environment alone), counts a repository as fully
successful exactly when all four booleans are true, and reports that count
together with a success percentage equal to
(fully-successful count / total repositories) × 100. -/
theorem c8_amended_multi_delete_report (env : String → RepoDeleteEnv)
    (repoNames : List String) (h : repoNames ≠ []) :
    ∃ rep : DeleteMultiReport,
      delete_multi_project env repoNames = .ok rep ∧
      rep.details.length = repoNames.length ∧
      (∀ i : Nat, rep.details[i]? =
        (repoNames[i]?).map fun n => process_delete_repo (env n) n) ∧
      rep.successCount = rep.details.countP (fun r =>
        r.github_repo && r.github_secrets && r.github_teams && r.sonarqube) ∧
      rep.success_rate = (rep.successCount * 100 : Rat) / repoNames.length := by
  have hlen : repoNames.length ≠ 0 := by
    intro hl
    exact h (List.length_eq_zero.mp hl)
  refine ⟨⟨((repoNames.map fun n => process_delete_repo (env n) n).filter
        fun r => r.github_repo && r.github_secrets && r.github_teams &&
          r.sonarqube).length,
      repoNames.length,
      repoNames.map fun n => process_delete_repo (env n) n,
      ((((repoNames.map fun n => process_delete_repo (env n) n).filter
          fun r => r.github_repo && r.github_secrets && r.github_teams &&
            r.sonarqube).length * 100 : Rat) / repoNames.length)⟩,
    ?_, by simp, ?_, ?_, rfl⟩
  · simp [delete_multi_project, pyDivNat, hlen]
  · intro i
    simp [List.getElem?_map]
  · exact (List.countP_eq_length_filter _ _).symm

/-- C8 witness: one repository with an all-success environment — the report
exists, has one detail entry and the stated percentage. -/
theorem c8_amended_multi_delete_report_witness :
    ∃ rep : DeleteMultiReport,
      delete_multi_project (fun _ => trivialDeleteEnv) ["a"] = .ok rep ∧
      rep.details.length = 1 ∧
      rep.success_rate = (rep.successCount * 100 : Rat) / 1 := by
  obtain ⟨rep, h1, h2, _, _, h5⟩ :=
    c8_amended_multi_delete_report (fun _ => trivialDeleteEnv) ["a"]
      (by decide)
  exact ⟨rep, h1, by simpa using h2, by simpa using h5⟩

/-- C10: multi-delete on an empty repository list raises `ZeroDivisionError`
while computing the success percentage, for every environment, so the
per-repository report is never produced — while the team-members aggregation
special-cases a zero total and returns a total report with rate 0. -/
theorem c10_empty_multi_delete_division :
    (∀ env : String → RepoDeleteEnv,
      delete_multi_project env [] = .error .zeroDivision) ∧
    update_team_members_report [] =
      ({ success_rate := 0, total_updates := 0, successful_updates := 0 } :
        TeamMembersReport) := by
  exact ⟨fun _ => rfl, rfl⟩

/-- Helper: a left fold that overwrites an optional accumulator at every
element satisfying `p` ends at the last satisfying element (or the initial
value when none satisfies). -/
theorem foldl_overwrite_eq_getLast {α β : Type} (p : α → Bool) (g : α → β)
    (l : List α) (init : Option β) :
    l.foldl (fun st x => if p x then some (g x) else st) init
      = ((l.filter p).getLast?).elim init (fun x => some (g x)) := by
  induction l using List.reverseRecOn with
  | nil => rfl
  | append_singleton l' x ih =>
    rw [List.foldl_append, List.foldl_cons, List.foldl_nil, List.filter_append]
    by_cases hx : p x
    · simp [hx, List.getLast?_concat]
    · simp [hx, ih]

/-- C9: the secrets mapping built by multi-create equals the token/key of
the LAST successful pair of `zip(sonar_projects, sonar_tokens)` (or is empty
when no pair succeeds), and whenever such a pair exists, every successful
repository receives those identical SONAR_TOKEN and SONAR_PROJECT_KEY
values, not values tied to that repository's own project. -/
theorem c9_last_pair_secrets_shared (ps : List SonarProjRecord)
    (ts : List TokenRecord) (repos : List String) :
    build_multi_project_secrets ps ts
      = (last_success_pair ps ts).map (fun pt => (pt.2.token, pt.1.key)) ∧
    (∀ pt : SonarProjRecord × TokenRecord,
      last_success_pair ps ts = some pt →
      multi_project_secret_writes ps ts repos
        = repos.map fun r => (r, (pt.2.token, pt.1.key))) := by
  have hfold := foldl_overwrite_eq_getLast
    (fun pt : SonarProjRecord × TokenRecord => pt.1.success && pt.2.success)
    (fun pt => ((pt.2.token, pt.1.key) : Option String × Option String))
    (ps.zip ts) none
  have h1 : build_multi_project_secrets ps ts
      = (last_success_pair ps ts).map (fun pt => (pt.2.token, pt.1.key)) := by
    rw [build_multi_project_secrets, last_success_pair, hfold]
    cases ((ps.zip ts).filter fun pt =>
        pt.1.success && pt.2.success).getLast? with
    | none => rfl
    | some pt => rfl
  refine ⟨h1, fun pt hpt => ?_⟩
  rw [multi_project_secret_writes, h1, hpt]
  rfl

/-- C9 witness: two successful pairs and two successful repositories — both
repositories are written the second pair's token and key. -/
theorem c9_last_pair_secrets_shared_witness :
    multi_project_secret_writes
        [⟨some "k1", "p1", true, none⟩, ⟨some "k2", "p2", true, none⟩]
        [⟨"k1", some "t1", true, none⟩, ⟨"k2", some "t2", true, none⟩]
        ["r1", "r2"]
      = [("r1", (some "t2", some "k2")), ("r2", (some "t2", some "k2"))] := by
  have h := (c9_last_pair_secrets_shared
      [⟨some "k1", "p1", true, none⟩, ⟨some "k2", "p2", true, none⟩]
      [⟨"k1", some "t1", true, none⟩, ⟨"k2", some "t2", true, none⟩]
      ["r1", "r2"]).2
    (⟨some "k2", "p2", true, none⟩, ⟨"k2", some "t2", true, none⟩)
    (by decide)
  simpa using h

end GithubPython
